import Mathlib

/-!
# Verification of the ngrx-store-wrapper dynamic slice registry

A shallow embedding of `src/lib/ngrx-store-wrapper.service.ts`
(class `NgrxStoreWrapperService`) from the `ngrx-store-wrapper`
repository, together with theorems settling the specification claims
about the Dynamic Slice Registry, the Effect Scheduler and the
Persistence Synchronizer.

Modelling conventions:
* JavaScript values flowing through the store are modelled by `Value`;
  object identity (the `===` comparison used by the generated reducer)
  is modelled by an identity tag carried by `Value.obj`, so that `=` on
  `Value` coincides with the JavaScript `===` test the code performs.
* The JavaScript objects the service uses as records
  (`dynamicActions`, `dynamicReducers`, `selectors`, `effectConfigs`,
  `pollingSubscriptions`) and the `Map` `persistedKeys` are modelled by
  insertion-ordered association lists (`aset` updates in place,
  appending fresh keys, exactly like `Map.set` / property assignment).
* `localStorage` / `sessionStorage` are string-keyed association lists;
  `JSON.stringify` / `JSON.parse` become the injective `serialize` and
  its partial inverse `parse`.
* RxJS interval subscriptions are modelled by explicit timer records:
  `pollingSubs` is the service's `pollingSubscriptions` record (the
  bookkeeping), while `liveTimers` is the set of interval timers that
  are actually running in the runtime.  Overwriting a record entry
  without unsubscribing would leave the old timer in `liveTimers`,
  which is exactly the leak the teardown-before-install discipline of
  `addEffect` prevents.
* Angular's `isDevMode()` is the state field `devMode`; `NgZone.run` /
  `runOutsideAngular` only affect change detection and are semantic
  no-ops here.
* Operations that can `throw` return `Except String`; diagnostics and
  store notifications are accumulated in an event list.
-/

/-- The two storage backends of `storage-type.enum.ts`. -/
inductive StorageType where
  | Local
  | Session
  deriving DecidableEq, Repr

/-- JavaScript values held in store slices.  `obj id` models a heap
object through its identity, so `Value` equality is JavaScript `===`. -/
inductive Value where
  | vnull
  | vundefined
  | num (n : Int)
  | str (s : String)
  | obj (id : Nat)
  deriving DecidableEq, Repr

/-- `JSON.stringify` as used for storage writes: an injective textual
encoding of the storable values. -/
def serialize : Value → String
  | .vnull => "null"
  | .vundefined => "undefined"
  | .num n => "n" ++ toString n
  | .str s => "s" ++ s
  | .obj i => "o" ++ toString i

/-- Value of a decimal digit character. -/
def digitVal (c : Char) : Option Nat :=
  if c = '0' then some 0
  else if c = '1' then some 1
  else if c = '2' then some 2
  else if c = '3' then some 3
  else if c = '4' then some 4
  else if c = '5' then some 5
  else if c = '6' then some 6
  else if c = '7' then some 7
  else if c = '8' then some 8
  else if c = '9' then some 9
  else none

def natOfDigitsAux (n : Nat) : List Char → Option Nat
  | [] => some n
  | c :: cs =>
    match digitVal c with
    | some d => natOfDigitsAux (n * 10 + d) cs
    | none => none

/-- Decimal reading of a non-empty digit string. -/
def natOfDigits : List Char → Option Nat
  | [] => none
  | cs => natOfDigitsAux 0 cs

/-- Decimal reading of an optionally negated digit string. -/
def intOfDigits : List Char → Option Int
  | '-' :: cs => (natOfDigits cs).map (fun n => -(n : Int))
  | cs => (natOfDigits cs).map (fun n => (n : Int))

/-- `JSON.parse` on the encoding produced by `serialize`; returns
`none` where `JSON.parse` would throw (caught by the callers). -/
def parse (s : String) : Option Value :=
  match s.toList with
  | ['n', 'u', 'l', 'l'] => some .vnull
  | 'n' :: rest => (intOfDigits rest).map Value.num
  | 's' :: rest => some (.str (String.mk rest))
  | 'o' :: rest => (natOfDigits rest).map Value.obj
  | _ => none

/-- Association-list lookup (JS property read / `Map.get`). -/
def alookup {α : Type} (m : List (String × α)) (k : String) : Option α :=
  match m with
  | [] => none
  | (k', v) :: rest => if k' = k then some v else alookup rest k

/-- Association-list update (JS property assignment / `Map.set`):
updates in place when the key is present, appends otherwise. -/
def aset {α : Type} (m : List (String × α)) (k : String) (v : α) :
    List (String × α) :=
  match m with
  | [] => [(k, v)]
  | (k', v') :: rest =>
      if k' = k then (k, v) :: rest else (k', v') :: aset rest k v

/-- Association-list deletion (JS `delete` / `Map.delete`). -/
def aerase {α : Type} (m : List (String × α)) (k : String) :
    List (String × α) :=
  match m with
  | [] => []
  | (k', v') :: rest =>
      if k' = k then aerase rest k else (k', v') :: aerase rest k

/-- The optional `transform` result mapper of an effect configuration,
as a first-order function so states stay decidable. -/
inductive TransformFn where
  | identity
  | constV (v : Value)
  deriving DecidableEq, Repr

def TransformFn.apply : TransformFn → Value → Value
  | .identity, v => v
  | .constV w, _ => w

/-- One entry of the service's `effectConfigs` record: the scheduling
options stored by `addEffect`.  The producer function
(`originalServiceFn`, with its `context` and `args`) is opaque to the
registry; it is represented by an identity tag, and its behaviour at
each invocation is supplied to `executeEffect` as a
`ProducerOutcome`. -/
structure EffectConfig where
  intervalMs : Option Nat
  immediate : Bool
  transform : Option TransformFn
  producerId : Nat
  deriving DecidableEq, Repr

/-- The observable behaviour of one producer invocation: the effect's
service function either emits a value or errors. -/
inductive ProducerOutcome where
  | success (v : Value)
  | failure (msg : String)
  deriving DecidableEq, Repr

/-- Events the service emits towards its collaborators: `console`
diagnostics, DevTools log entries, downstream store notifications and
timer lifecycle events.  `notify k` records a dispatch of the
generated `set` action whose write-handler returned a value different
from the previous slice state — the condition under which subscribers
of the slice's read projection receive a new value from the write
path. -/
inductive Event where
  | warn (msg : String)
  | error (msg : String)
  | notify (key : String)
  | devtools (tag : String) (key : String)
  | timerStart (key : String) (id : Nat)
  | timerCancel (key : String) (id : Nat)
  deriving DecidableEq, Repr

/-- The complete state of an `NgrxStoreWrapperService` instance
together with the external resources it manipulates (host store,
reducer manager, both storages, running timers). -/
structure WrapperState where
  isInitialized : Bool
  devMode : Bool
  /-- Keys present in the host container's snapshot at
  `initializeStore` time (`staticReducerKeys`). -/
  staticReducerKeys : List String
  /-- Keys of the `dynamicActions` record; entries are the action keys
  `"set" ++ key`. -/
  dynamicActions : List String
  /-- Keys of the `dynamicReducers` record. -/
  dynamicReducers : List String
  /-- Keys whose generated reducer is currently installed in the host
  `ReducerManager`. -/
  reducerManagerKeys : List String
  /-- Keys of the `selectors` record. -/
  selectors : List String
  /-- The `persistedKeys` map. -/
  persistedKeys : List (String × StorageType)
  /-- The `pollingSubscriptions` record: key to interval timer id. -/
  pollingSubs : List (String × Nat)
  /-- Interval timers actually running: (key they poll for, id). -/
  liveTimers : List (String × Nat)
  /-- Fresh timer id supply. -/
  nextTimerId : Nat
  /-- The `effectConfigs` record. -/
  effectConfigs : List (String × EffectConfig)
  /-- The host container's state; an absent key reads as `undefined`. -/
  store : List (String × Value)
  localStorage : List (String × String)
  sessionStorage : List (String × String)
  deriving DecidableEq, Repr

/-- Reading `state[key]` from the host container snapshot. -/
def storeGet (s : WrapperState) (key : String) : Value :=
  (alookup s.store key).getD .vundefined

/-- The backend selected by `type === StorageType.Local ?
localStorage : sessionStorage`. -/
def storageOf (s : WrapperState) : StorageType → List (String × String)
  | .Local => s.localStorage
  | .Session => s.sessionStorage

/-- Writing one entry of the selected backend. -/
def storageSet (s : WrapperState) (ty : StorageType) (k v : String) :
    WrapperState :=
  match ty with
  | .Local => { s with localStorage := aset s.localStorage k v }
  | .Session => { s with sessionStorage := aset s.sessionStorage k v }

/-- `ReducerManager.addReducer(key, reducer)`: installs the generated
write-handler and initializes the slice to the reducer's initial state
`null`. -/
def addReducer (s : WrapperState) (key : String) : WrapperState :=
  { s with reducerManagerKeys := key :: s.reducerManagerKeys,
           store := aset s.store key .vnull }

/-- `ReducerManager.removeReducer(key)`: uninstalls the write-handler;
the host drops the defunct feature slice from its state. -/
def removeReducer (s : WrapperState) (key : String) : WrapperState :=
  { s with reducerManagerKeys := s.reducerManagerKeys.erase key,
           store := aerase s.store key }

/-- Dispatch of the generated `[key] Set` action.  The write-handler
(`createReducer(null, on(action, ...))` at lines 152–168) skips the
update when the incoming value is `===` to the current state and
otherwise logs to DevTools and returns the new value; the action only
reaches a write-handler while one is installed in the reducer
manager. -/
def dispatchSet (s : WrapperState) (key : String) (v : Value) :
    WrapperState × List Event :=
  if key ∈ s.reducerManagerKeys then
    let st := storeGet s key
    if st = v then (s, [])
    else ({ s with store := aset s.store key v },
          [.devtools "SET" key, .notify key])
  else (s, [])

/-- The constant `DYNAMIC_KEY_WARN_THRESHOLD`. -/
def DYNAMIC_KEY_WARN_THRESHOLD : Nat := 100

/-- The metadata record key `LOCAL_KEY_META`. -/
def LOCAL_KEY_META : String := "__ngrx_wrapper_persisted_keys__"

/-- The metadata record key `SESSION_KEY_META`. -/
def SESSION_KEY_META : String := "__ngrx_wrapper_persisted_keys__"

/-- `NgrxStoreWrapperService.set` (lines 125–196).  Checks
initialization, ignores statically declared keys with a dev-mode
warning, lazily creates the action / reducer / selector triple (with
the dynamic-key threshold warning), dispatches the value through the
generated write-handler, and mirrors the value into storage when the
key is persisted. -/
def setOp (s : WrapperState) (key : String) (v : Value) :
    Except String (WrapperState × List Event) :=
  if !s.isInitialized then
    .error "Store must be initialized before use. Call initializeStore() first."
  else if key ∈ s.staticReducerKeys then
    .ok (s, if s.devMode then
      [.warn ("[ngrx-store-wrapper] Attempted to set static reducer key: " ++ key)]
    else [])
  else
    let actionKey := "set" ++ key
    let (s1, ev1) :=
      if actionKey ∈ s.dynamicActions then (s, ([] : List Event))
      else
        let sa := { s with dynamicActions := actionKey :: s.dynamicActions,
                           dynamicReducers := key :: s.dynamicReducers }
        let sb := addReducer sa key
        let evWarn : List Event :=
          if sb.devMode ∧ sb.dynamicReducers.length > DYNAMIC_KEY_WARN_THRESHOLD then
            [.warn "[ngrx-store-wrapper] More than 100 dynamic store keys registered."]
          else []
        let sc := { sb with selectors := key :: sb.selectors }
        (sc, evWarn)
    let (s2, ev2) := dispatchSet s1 key v
    match alookup s2.persistedKeys key with
    | some ty => .ok (storageSet s2 ty key (serialize v), ev1 ++ ev2)
    | none => .ok (s2, ev1 ++ ev2)

/-- `NgrxStoreWrapperService.get` (lines 198–224).  Throws only when
the store is uninitialized; otherwise lazily creates a selector for
the key and returns the live view.  `inCtx` tells whether the call
happens inside an Angular injection context: outside one, auto-
unsubscribe is unavailable and a dev-mode warning is emitted. -/
def getOp (s : WrapperState) (key : String) (inCtx : Bool) :
    Except String (WrapperState × List Event) :=
  if !s.isInitialized then
    .error "Store must be initialized before getting data"
  else
    let s1 := if key ∈ s.selectors then s
              else { s with selectors := key :: s.selectors }
    if inCtx then .ok (s1, [])
    else .ok (s1, if s1.devMode then
      [.warn ("[ngrx-store-wrapper] Auto-unsubscribe only works in components/services. Key: " ++ key)]
    else [])

/-- `NgrxStoreWrapperService.removeEffect` (lines 409–418).  Cancels
any active interval subscription for the key and discards the stored
effect configuration; safe to call when nothing was registered. -/
def removeEffect (s : WrapperState) (key : String) :
    WrapperState × List Event :=
  let (s1, ev1) :=
    match alookup s.pollingSubs key with
    | some id =>
        ({ s with liveTimers := s.liveTimers.filter (fun p => p.2 ≠ id),
                  pollingSubs := aerase s.pollingSubs key },
         [Event.timerCancel key id])
    | none => (s, [])
  match alookup s1.effectConfigs key with
  | some _ => ({ s1 with effectConfigs := aerase s1.effectConfigs key }, ev1)
  | none => (s1, ev1)

/-- `NgrxStoreWrapperService.executeEffect` (lines 276–306).  Looks up
the stored configuration, invokes the (auto-bound) producer and pipes
the result through `take(1)` with `catchError` returning `of(null)`: a
failing producer is logged and yields `null`, and a `null`/`undefined`
result short-circuits without writing; otherwise the optional
`transform` is applied and the result is written through `set`.  The
producer invocation's observable behaviour is supplied as `out`. -/
def executeEffect (s : WrapperState) (key : String)
    (out : ProducerOutcome) : WrapperState × List Event :=
  match alookup s.effectConfigs key with
  | none => (s, [])
  | some cfg =>
    match out with
    | .failure msg =>
        (s, [.error ("[ngrx-store-wrapper] Error in effect for key " ++ key ++ ": " ++ msg)])
    | .success v =>
        if v = .vnull ∨ v = .vundefined then (s, [])
        else
          let finalValue := match cfg.transform with
            | some t => t.apply v
            | none => v
          match setOp s key finalValue with
          | .ok (s', ev) => (s', ev)
          | .error e => (s, [.error e])

/-- The options record taken by `addEffect` (producer opaque, see
`EffectConfig`). -/
structure EffectOptions where
  key : String
  intervalMs : Option Nat
  immediate : Bool
  transform : Option TransformFn
  producerId : Nat
  deriving DecidableEq, Repr

/-- `NgrxStoreWrapperService.addEffect` (lines 226–274).  Logs the
registration to DevTools, tears down any existing registration for the
key via `removeEffect`, stores the new configuration, runs the
producer once when `immediate` is set (its behaviour supplied as
`immediateOut`), and, when `intervalMs` is set, starts a fresh
interval timer and records its subscription. -/
def addEffect (s : WrapperState) (opts : EffectOptions)
    (immediateOut : ProducerOutcome) : WrapperState × List Event :=
  let ev0 : List Event := [.devtools "EFFECT_ADD" opts.key]
  let (s1, ev1) := removeEffect s opts.key
  let newCfg : EffectConfig :=
    ⟨opts.intervalMs, opts.immediate, opts.transform, opts.producerId⟩
  let s2 := { s1 with effectConfigs := aset s1.effectConfigs opts.key newCfg }
  let (s3, ev2) :=
    if opts.immediate then executeEffect s2 opts.key immediateOut
    else (s2, [])
  match opts.intervalMs with
  | some _ =>
      let id := s3.nextTimerId
      ({ s3 with liveTimers := (opts.key, id) :: s3.liveTimers,
                 pollingSubs := aset s3.pollingSubs opts.key id,
                 nextTimerId := id + 1 },
       ev0 ++ ev1 ++ ev2 ++ [.timerStart opts.key id])
  | none => (s3, ev0 ++ ev1 ++ ev2)

/-- `NgrxStoreWrapperService.remove` (lines 420–440).  After the
initialization check, a key without a generated reducer is left
entirely alone; otherwise the current slice value is read for
DevTools, the `dynamicReducers`, `dynamicActions` and `selectors`
record entries under the name `key` are deleted (note the source
deletes `dynamicActions[key]`, while actions are stored under
`"set" ++ key`), and the write-handler is uninstalled from the reducer
manager. -/
def removeOp (s : WrapperState) (key : String) :
    Except String (WrapperState × List Event) :=
  if !s.isInitialized then
    .error "Store must be initialized before use. Call initializeStore() first."
  else if key ∈ s.dynamicReducers then
    let s1 := { s with dynamicReducers := s.dynamicReducers.erase key,
                       dynamicActions := s.dynamicActions.erase key,
                       selectors := s.selectors.erase key }
    .ok (removeReducer s1 key, [.devtools "REMOVE" key])
  else
    .ok (s, [])

/-- `NgrxStoreWrapperService.savePersistedKeys` (lines 496–507):
rebuilds both backend metadata records from the `persistedKeys` map. -/
def savePersistedKeys (s : WrapperState) : WrapperState :=
  let locals := (s.persistedKeys.filter (fun p => p.2 = .Local)).map (·.1)
  let sessions := (s.persistedKeys.filter (fun p => p.2 = .Session)).map (·.1)
  { s with
      localStorage := aset s.localStorage LOCAL_KEY_META (String.intercalate "," locals),
      sessionStorage := aset s.sessionStorage SESSION_KEY_META (String.intercalate "," sessions) }

def splitOnComma : List Char → List Char → List String
  | [], cur => [String.mk cur.reverse]
  | c :: rest, cur =>
    if c = ',' then String.mk cur.reverse :: splitOnComma rest []
    else splitOnComma rest (c :: cur)

/-- `JSON.parse` of a metadata record followed by `Object.keys`: the
keys listed by a metadata string (inverse of the encoding written by
`savePersistedKeys`); `none` where `JSON.parse` would throw. -/
def parseKeys (str : String) : Option (List String) :=
  if str = "" then some [] else some (splitOnComma str.toList [])

/-- `NgrxStoreWrapperService.enablePersistence` (lines 442–466).
Records the binding and saves the metadata; then, if the backend
already holds a value under the key, parses it and feeds it into the
store through `set` (a parse failure is caught with a warning);
otherwise reads the slice's current value from the store and, when it
is not `undefined`, writes its serialization into the backend. -/
def enablePersistence (s : WrapperState) (key : String) (ty : StorageType) :
    Except String (WrapperState × List Event) :=
  let s0 := { s with persistedKeys := aset s.persistedKeys key ty }
  let s1 := savePersistedKeys s0
  match alookup (storageOf s1 ty) key with
  | some str =>
      match parse str with
      | some v => setOp s1 key v
      | none =>
          .ok (s1, [.warn ("[ngrx-store-wrapper] Failed to parse persisted value for key: " ++ key)])
  | none =>
      if !s1.isInitialized then
        .error "TypeError: cannot read pipe of undefined"
      else
        let cur := storeGet s1 key
        if cur = .vundefined then .ok (s1, [])
        else .ok (storageSet s1 ty key (serialize cur), [])

/-- `NgrxStoreWrapperService.loadPersistedKeys` (lines 477–494).
Reads both metadata records; for each one that is present, non-empty
and parseable, registers every listed key in the `persistedKeys` map —
local entries first, session entries second. -/
def loadPersistedKeys (s : WrapperState) : WrapperState :=
  let s1 :=
    match alookup s.localStorage LOCAL_KEY_META with
    | some str =>
        if str = "" then s
        else match parseKeys str with
          | some keys =>
              { s with persistedKeys :=
                  keys.foldl (fun m k => aset m k .Local) s.persistedKeys }
          | none => s
    | none => s
  match alookup s1.sessionStorage SESSION_KEY_META with
  | some str =>
      if str = "" then s1
      else match parseKeys str with
        | some keys =>
            { s1 with persistedKeys :=
                keys.foldl (fun m k => aset m k .Session) s1.persistedKeys }
        | none => s1
  | none => s1

/-- One iteration of the `restorePersistedState` loop: for a persisted
key whose backend holds a (truthy) value, parses it and feeds it into
the store through `set`; a parse failure is caught with a warning. -/
def restoreStep (acc : WrapperState × List Event)
    (p : String × StorageType) : WrapperState × List Event :=
  match alookup (storageOf acc.1 p.2) p.1 with
  | some str =>
      if str = "" then acc
      else match parse str with
        | some v =>
            match setOp acc.1 p.1 v with
            | .ok (st', ev') => (st', acc.2 ++ ev')
            | .error _ => acc
        | none =>
            (acc.1, acc.2 ++
              [.warn ("[ngrx-store-wrapper] Could not parse persisted data for key: " ++ p.1)])
  | none => acc

/-- `NgrxStoreWrapperService.restorePersistedState` (lines 509–521). -/
def restorePersistedState (s : WrapperState) : WrapperState × List Event :=
  s.persistedKeys.foldl restoreStep (s, [])

/-- `NgrxStoreWrapperService.initializeStore` (lines 108–123): marks
the service initialized, records every key of the host snapshot in the
declared key set, then loads the persisted-keys metadata and restores
the persisted state. -/
def initializeStore (s : WrapperState) : WrapperState × List Event :=
  let s1 := { s with isInitialized := true,
                     staticReducerKeys :=
                       s.staticReducerKeys ++ s.store.map (·.1) }
  restorePersistedState (loadPersistedKeys s1)

/-- Number of downstream notifications for `k` in an event list. -/
def notifyCount (evs : List Event) (k : String) : Nat :=
  (evs.filter (fun e => e = .notify k)).length

theorem alookup_aset_self {α : Type} (m : List (String × α)) (k : String)
    (v : α) : alookup (aset m k v) k = some v := by
  induction m with
  | nil => simp [aset, alookup]
  | cons p rest ih =>
    by_cases h : p.1 = k <;> simp [aset, alookup, h, ih]

theorem alookup_aset_ne {α : Type} (m : List (String × α)) (k k' : String)
    (v : α) (h : k ≠ k') : alookup (aset m k v) k' = alookup m k' := by
  induction m with
  | nil => simp [aset, alookup, h]
  | cons p rest ih =>
    by_cases h1 : p.1 = k
    · simp [aset, alookup, h1, h]
    · by_cases h2 : p.1 = k' <;> simp [aset, alookup, h1, h2, ih, h.symm]

theorem notifyCount_nil (k : String) : notifyCount [] k = 0 := rfl

theorem notifyCount_append (a b : List Event) (k : String) :
    notifyCount (a ++ b) k = notifyCount a k + notifyCount b k := by
  simp [notifyCount, List.filter_append]

theorem notifyCount_ite (P : Prop) [Decidable P] (a b : List Event)
    (k : String) :
    notifyCount (if P then a else b) k =
      if P then notifyCount a k else notifyCount b k :=
  apply_ite (notifyCount · k) P a b

/-- A convenient initial state: a freshly constructed service attached
to a host container whose snapshot is `st`, with storages `ls` and
`ss`, after `initializeStore` recorded the snapshot keys (and with no
persisted-keys metadata present). -/
def mkInitState (statics : List String) (st : List (String × Value))
    (ls ss : List (String × String)) (dev : Bool) : WrapperState :=
  { isInitialized := true
    devMode := dev
    staticReducerKeys := statics
    dynamicActions := []
    dynamicReducers := []
    reducerManagerKeys := []
    selectors := []
    persistedKeys := []
    pollingSubs := []
    liveTimers := []
    nextTimerId := 0
    effectConfigs := []
    store := st
    localStorage := ls
    sessionStorage := ss }

/-- C1: writing a statically declared key is a silent no-op.  With the
store initialized and `k` in the declared key set, `set(k, v)` returns
normally (no exception) with the service state — in particular the
host store state for `k` — completely unchanged: no action is created,
no reducer is registered, nothing is dispatched, and the only output
is the dev-mode warning. -/
theorem C1_static_key_set_noop (s : WrapperState) (k : String) (v : Value)
    (hInit : s.isInitialized = true) (hStatic : k ∈ s.staticReducerKeys) :
    setOp s k v = .ok (s, if s.devMode then
      [.warn ("[ngrx-store-wrapper] Attempted to set static reducer key: " ++ k)]
    else []) := by
  simp [setOp, hInit, hStatic]

/-- Witness for C1 at a concrete state: the declared key `"user"` of a
host container holding `"user" ↦ 7`. -/
theorem C1_static_key_set_noop_witness :
    setOp (mkInitState ["user"] [("user", .num 7)] [] [] true) "user" (.num 5)
      = .ok (mkInitState ["user"] [("user", .num 7)] [] [] true,
             [.warn "[ngrx-store-wrapper] Attempted to set static reducer key: user"]) := by
  have h := C1_static_key_set_noop
    (mkInitState ["user"] [("user", .num 7)] [] [] true) "user" (.num 5)
    (by decide) (by decide)
  simpa [mkInitState] using h

/-- Test harness for the idempotence claim: runs `set(k, v)` twice in a
row and reports the total number of downstream notifications for `k`
(`none` if either call throws). -/
def twoSetNotifications (s : WrapperState) (k : String) (v : Value) :
    Option Nat :=
  match setOp s k v with
  | .error _ => none
  | .ok (s1, ev1) =>
    match setOp s1 k v with
    | .error _ => none
    | .ok (_, ev2) => some (notifyCount (ev1 ++ ev2) k)

/-- Like `twoSetNotifications`, but reporting only the notifications
produced by the second of the two `set` calls. -/
def secondSetNotifications (s : WrapperState) (k : String) (v : Value) :
    Option Nat :=
  match setOp s k v with
  | .error _ => none
  | .ok (s1, _) =>
    match setOp s1 k v with
    | .error _ => none
    | .ok (_, ev2) => some (notifyCount ev2 k)

/-- C2 counterexample: the claim promises exactly one downstream
notification for every dynamic key and every value.  For `v = null` —
the generated reducer's initial state — already the first `set` is
suppressed by the write-handler's identity check, so the pair of calls
produces zero notifications, not one. -/
theorem C2_counterexample_null_value :
    twoSetNotifications (mkInitState [] [] [] [] true) "u" Value.vnull
        = some 0 ∧
    twoSetNotifications (mkInitState [] [] [] [] true) "u" Value.vnull
        ≠ some 1 := by
  constructor
  · decide
  · decide

/-- C2 (amended): for a never-declared key `k` whose slice does not
exist yet, `set(k, v); set(k, v)` produces exactly one downstream
notification when `v` differs from the generated reducer's initial
state `null`, and zero when `v = null`; in every case the second call
is suppressed by the write-handler's identity check and produces no
notification. -/
theorem C2_fresh_key_two_sets (s : WrapperState) (k : String) (v : Value)
    (hInit : s.isInitialized = true)
    (hNotStatic : k ∉ s.staticReducerKeys)
    (hFresh : ("set" ++ k) ∉ s.dynamicActions) :
    twoSetNotifications s k v = some (if v = Value.vnull then 0 else 1) ∧
    secondSetNotifications s k v = some 0 := by
  by_cases hv : Value.vnull = v
  · subst hv
    rcases hpk : alookup s.persistedKeys k with _ | ty
    · simp [twoSetNotifications, secondSetNotifications, setOp, dispatchSet,
        addReducer, storeGet, storageSet, hInit, hNotStatic, hFresh,
        alookup_aset_self, hpk, notifyCount_append, notifyCount_ite,
        notifyCount]
      intro a _ _ ha
      subst ha
      simp
    · rcases ty <;>
        (simp [twoSetNotifications, secondSetNotifications, setOp, dispatchSet,
          addReducer, storeGet, storageSet, hInit, hNotStatic, hFresh,
          alookup_aset_self, hpk, notifyCount_append, notifyCount_ite,
          notifyCount];
         intro a _ _ ha; subst ha; simp)
  · have hv' : v ≠ Value.vnull := fun h => hv h.symm
    rcases hpk : alookup s.persistedKeys k with _ | ty
    · simp [twoSetNotifications, secondSetNotifications, setOp, dispatchSet,
        addReducer, storeGet, storageSet, hInit, hNotStatic, hFresh,
        alookup_aset_self, hpk, hv, hv', notifyCount_append, notifyCount_ite,
        notifyCount]
      intro a _ _ ha
      subst ha
      simp
    · rcases ty <;>
        (simp [twoSetNotifications, secondSetNotifications, setOp, dispatchSet,
          addReducer, storeGet, storageSet, hInit, hNotStatic, hFresh,
          alookup_aset_self, hpk, hv, hv', notifyCount_append, notifyCount_ite,
          notifyCount];
         intro a _ _ ha; subst ha; simp)

/-- Witness for C2 (amended) at a fresh dynamic key and a non-null
object value: one notification in total, none from the second call. -/
theorem C2_fresh_key_two_sets_witness :
    twoSetNotifications (mkInitState [] [] [] [] true) "user" (Value.obj 3)
        = some 1 ∧
    secondSetNotifications (mkInitState [] [] [] [] true) "user"
        (Value.obj 3) = some 0 := by
  have h := C2_fresh_key_two_sets (mkInitState [] [] [] [] true) "user"
    (Value.obj 3) (by decide) (by decide) (by decide)
  simpa using h

/-- Whether an `Except` result is a normal return. -/
def isOkE {ε α : Type} : Except ε α → Bool
  | .ok _ => true
  | .error _ => false

/-- The sequence of states reached by an interval timer's ticks: each
tick invokes `executeEffect`, with the producer's behaviour at each
tick supplied by `outs`. -/
def runTicks (s : WrapperState) (k : String) (outs : List ProducerOutcome) :
    WrapperState :=
  outs.foldl (fun st out => (executeEffect st k out).1) s

/-- C5: a failing producer invocation is converted to a benign no-op.
`executeEffect` pipes the producer through `catchError`, so a failure
leaves the whole service state — in particular the store value for `k`
and the running timers — unchanged, produces no downstream
notification (no `set` is performed), is merely logged, and does not
terminate the tick sequence: the ticks following a failing one reach
exactly the states they would have reached without it.  (That
`executeEffect` is a total function into states rather than an
`Except` reflects that the failure cannot propagate to the caller of
`addEffect`.) -/
theorem C5_producer_failure_is_noop (s : WrapperState) (k msg : String)
    (outs : List ProducerOutcome) :
    (executeEffect s k (.failure msg)).1 = s ∧
    notifyCount (executeEffect s k (.failure msg)).2 k = 0 ∧
    runTicks s k (.failure msg :: outs) = runTicks s k outs := by
  have h1 : (executeEffect s k (.failure msg)).1 = s := by
    cases h : alookup s.effectConfigs k <;> simp [executeEffect, h]
  refine ⟨h1, ?_, ?_⟩
  · cases h : alookup s.effectConfigs k <;>
      simp [executeEffect, h, notifyCount]
  · simp [runTicks, h1]

/-- C6 (amended): once the store is initialized, `get(key)` never
fails, for any key whatsoever — a missing slice is not detected; the
view of a never-set dynamic key simply observes `undefined`.  `get`
fails exactly when the store is uninitialized. -/
theorem C6_get_succeeds_iff_initialized (s : WrapperState) (k : String)
    (inCtx : Bool) : isOkE (getOp s k inCtx) = s.isInitialized := by
  cases hI : s.isInitialized <;> cases inCtx <;>
    by_cases hsel : k ∈ s.selectors <;> simp [getOp, isOkE, hI, hsel]

/-- C6 counterexample: in an initialized store whose only declared key
is `"s"`, the key `"u"` is neither declared nor has any slice ever
been created for it, yet `get("u")` succeeds instead of failing with
an uninitialized-key condition. -/
theorem C6_counterexample_missing_key_get_succeeds :
    "u" ∉ (mkInitState ["s"] [("s", Value.num 1)] [] [] true).dynamicReducers ∧
    "u" ∉ (mkInitState ["s"] [("s", Value.num 1)] [] [] true).staticReducerKeys ∧
    isOkE (getOp (mkInitState ["s"] [("s", Value.num 1)] [] [] true) "u" true)
      = true := by
  decide

/-- The generated write-handler only ever touches the host store:
every other part of the service state is untouched by a dispatch. -/
theorem dispatchSet_frame (s : WrapperState) (k : String) (v : Value)
    (s2 : WrapperState) (ev2 : List Event)
    (hd : dispatchSet s k v = (s2, ev2)) :
    s2.persistedKeys = s.persistedKeys ∧
    s2.pollingSubs = s.pollingSubs ∧
    s2.liveTimers = s.liveTimers ∧
    s2.nextTimerId = s.nextTimerId ∧
    s2.effectConfigs = s.effectConfigs ∧
    s2.isInitialized = s.isInitialized ∧
    s2.devMode = s.devMode ∧
    s2.staticReducerKeys = s.staticReducerKeys ∧
    s2.dynamicActions = s.dynamicActions ∧
    s2.dynamicReducers = s.dynamicReducers ∧
    s2.reducerManagerKeys = s.reducerManagerKeys ∧
    s2.selectors = s.selectors ∧
    s2.localStorage = s.localStorage ∧
    s2.sessionStorage = s.sessionStorage := by
  unfold dispatchSet at hd
  by_cases h1 : k ∈ s.reducerManagerKeys
  · by_cases h2 : storeGet s k = v <;>
      (simp only [h1, h2, if_pos, if_neg, if_true, if_false, ite_true,
        ite_false, Prod.mk.injEq] at hd;
       obtain ⟨hs, -⟩ := hd; subst hs; simp)
  · simp only [h1, if_neg, if_false, ite_false, Prod.mk.injEq] at hd
    obtain ⟨hs, -⟩ := hd
    subst hs
    simp

/-- A dispatch either leaves the state alone or only replaces the
slice value in the host store. -/
theorem dispatchSet_fst (s : WrapperState) (k : String) (v : Value) :
    (dispatchSet s k v).1 = s ∨
    (dispatchSet s k v).1 = { s with store := aset s.store k v } := by
  unfold dispatchSet
  by_cases h1 : k ∈ s.reducerManagerKeys
  · by_cases h2 : storeGet s k = v <;> simp [h1, h2]
  · simp [h1]

theorem dispatchSet_persistedKeys (s : WrapperState) (k : String) (v : Value) :
    (dispatchSet s k v).1.persistedKeys = s.persistedKeys := by
  rcases dispatchSet_fst s k v with h | h <;> simp [h]

theorem dispatchSet_pollingSubs (s : WrapperState) (k : String) (v : Value) :
    (dispatchSet s k v).1.pollingSubs = s.pollingSubs := by
  rcases dispatchSet_fst s k v with h | h <;> simp [h]

theorem dispatchSet_liveTimers (s : WrapperState) (k : String) (v : Value) :
    (dispatchSet s k v).1.liveTimers = s.liveTimers := by
  rcases dispatchSet_fst s k v with h | h <;> simp [h]

theorem dispatchSet_nextTimerId (s : WrapperState) (k : String) (v : Value) :
    (dispatchSet s k v).1.nextTimerId = s.nextTimerId := by
  rcases dispatchSet_fst s k v with h | h <;> simp [h]

theorem dispatchSet_effectConfigs (s : WrapperState) (k : String) (v : Value) :
    (dispatchSet s k v).1.effectConfigs = s.effectConfigs := by
  rcases dispatchSet_fst s k v with h | h <;> simp [h]

theorem dispatchSet_isInitialized (s : WrapperState) (k : String) (v : Value) :
    (dispatchSet s k v).1.isInitialized = s.isInitialized := by
  rcases dispatchSet_fst s k v with h | h <;> simp [h]

theorem dispatchSet_devMode (s : WrapperState) (k : String) (v : Value) :
    (dispatchSet s k v).1.devMode = s.devMode := by
  rcases dispatchSet_fst s k v with h | h <;> simp [h]

theorem dispatchSet_staticReducerKeys (s : WrapperState) (k : String)
    (v : Value) :
    (dispatchSet s k v).1.staticReducerKeys = s.staticReducerKeys := by
  rcases dispatchSet_fst s k v with h | h <;> simp [h]

/-- A successful `set` never touches the effect scheduler's or the
persistence registry's bookkeeping: `persistedKeys`, the polling
subscriptions, the running timers, the timer id supply and the effect
configurations (as well as the mode flags and the declared key set)
are all preserved. -/
theorem setOp_frame (s : WrapperState) (k : String) (v : Value)
    (s' : WrapperState) (ev : List Event) (h : setOp s k v = .ok (s', ev)) :
    s'.persistedKeys = s.persistedKeys ∧
    s'.pollingSubs = s.pollingSubs ∧
    s'.liveTimers = s.liveTimers ∧
    s'.nextTimerId = s.nextTimerId ∧
    s'.effectConfigs = s.effectConfigs ∧
    s'.isInitialized = s.isInitialized ∧
    s'.devMode = s.devMode ∧
    s'.staticReducerKeys = s.staticReducerKeys := by
  by_cases hmem : ("set" ++ k) ∈ s.dynamicActions <;>
    simp only [setOp, hmem, ite_true, ite_false] at h <;>
    split at h
  · exact absurd h (by simp)
  · split at h
    · rw [Except.ok.injEq, Prod.mk.injEq] at h
      obtain ⟨hs, -⟩ := h
      subst hs
      exact ⟨rfl, rfl, rfl, rfl, rfl, rfl, rfl, rfl⟩
    · split at h <;>
        (rw [Except.ok.injEq, Prod.mk.injEq] at h;
         obtain ⟨hs, -⟩ := h; subst hs)
      · rename_i ty _
        rcases ty <;>
          simp [storageSet, dispatchSet_persistedKeys, dispatchSet_pollingSubs,
            dispatchSet_liveTimers, dispatchSet_nextTimerId,
            dispatchSet_effectConfigs, dispatchSet_isInitialized,
            dispatchSet_devMode, dispatchSet_staticReducerKeys, addReducer]
      · simp [dispatchSet_persistedKeys, dispatchSet_pollingSubs,
          dispatchSet_liveTimers, dispatchSet_nextTimerId,
          dispatchSet_effectConfigs, dispatchSet_isInitialized,
          dispatchSet_devMode, dispatchSet_staticReducerKeys, addReducer]
  · exact absurd h (by simp)
  · split at h
    · rw [Except.ok.injEq, Prod.mk.injEq] at h
      obtain ⟨hs, -⟩ := h
      subst hs
      exact ⟨rfl, rfl, rfl, rfl, rfl, rfl, rfl, rfl⟩
    · split at h <;>
        (rw [Except.ok.injEq, Prod.mk.injEq] at h;
         obtain ⟨hs, -⟩ := h; subst hs)
      · rename_i ty _
        rcases ty <;>
          simp [storageSet, dispatchSet_persistedKeys, dispatchSet_pollingSubs,
            dispatchSet_liveTimers, dispatchSet_nextTimerId,
            dispatchSet_effectConfigs, dispatchSet_isInitialized,
            dispatchSet_devMode, dispatchSet_staticReducerKeys, addReducer]
      · simp [dispatchSet_persistedKeys, dispatchSet_pollingSubs,
          dispatchSet_liveTimers, dispatchSet_nextTimerId,
          dispatchSet_effectConfigs, dispatchSet_isInitialized,
          dispatchSet_devMode, dispatchSet_staticReducerKeys, addReducer]

theorem savePersistedKeys_persistedKeys (s : WrapperState) :
    (savePersistedKeys s).persistedKeys = s.persistedKeys := rfl

theorem savePersistedKeys_isInitialized (s : WrapperState) :
    (savePersistedKeys s).isInitialized = s.isInitialized := rfl

/-- Once the store is initialized, `set` cannot throw: every exit path
of the operation is a normal return. -/
theorem setOp_isOk (s : WrapperState) (k : String) (v : Value)
    (hInit : s.isInitialized = true) :
    ∃ s' ev, setOp s k v = .ok (s', ev) := by
  unfold setOp
  simp only [hInit, Bool.not_true, Bool.false_eq_true, if_false]
  by_cases hStat : k ∈ s.staticReducerKeys
  · simp [hStat]
  · simp only [hStat, ite_false, if_neg, not_false_iff]
    split <;> exact ⟨_, _, rfl⟩

/-- The persistence binding recorded for `k` after
`enablePersistence(k, ty)` (`none` if the call throws). -/
def persistenceBindingAfter (s : WrapperState) (k : String)
    (ty : StorageType) : Option StorageType :=
  match enablePersistence s k ty with
  | .error _ => none
  | .ok (s', _) => alookup s'.persistedKeys k

/-- C7 counterexample: in an initialized, completely empty registry the
key `"u"` has no slice whatsoever — no reducer, no selector, no store
entry — yet `enablePersistence("u", Local)` does not fail: it returns
normally and records the binding. -/
theorem C7_counterexample_missing_slice_enable_succeeds :
    isOkE (enablePersistence (mkInitState [] [] [] [] true) "u"
        StorageType.Local) = true ∧
    persistenceBindingAfter (mkInitState [] [] [] [] true) "u"
        StorageType.Local = some StorageType.Local := by
  decide

/-- C7 (amended): `enablePersistence(k, ty)` performs no existence
check at all.  For every initialized state and every key — whether or
not any slice for `k` exists — the call returns normally and the
binding for `k` is recorded in the registry. -/
theorem C7_enable_persistence_always_records (s : WrapperState)
    (k : String) (ty : StorageType) (hInit : s.isInitialized = true) :
    ∃ s' ev, enablePersistence s k ty = .ok (s', ev) ∧
      alookup s'.persistedKeys k = some ty := by
  simp only [enablePersistence]
  split
  · rename_i str hstr
    split
    · rename_i v hv
      obtain ⟨s', ev, hok⟩ := setOp_isOk
        (savePersistedKeys { s with persistedKeys := aset s.persistedKeys k ty })
        k v (by simp [savePersistedKeys_isInitialized, hInit])
      refine ⟨s', ev, hok, ?_⟩
      obtain ⟨hpk, -⟩ := setOp_frame _ _ _ _ _ hok
      rw [hpk, savePersistedKeys_persistedKeys]
      exact alookup_aset_self _ _ _
    · exact ⟨_, _, rfl, by
        rw [savePersistedKeys_persistedKeys]; exact alookup_aset_self _ _ _⟩
  · simp only [savePersistedKeys_isInitialized, hInit, Bool.not_true,
      Bool.false_eq_true, if_false]
    split
    · exact ⟨_, _, rfl, by
        rw [savePersistedKeys_persistedKeys]; exact alookup_aset_self _ _ _⟩
    · rcases ty <;>
        exact ⟨_, _, rfl, by
          simp [storageSet, savePersistedKeys_persistedKeys, alookup_aset_self]⟩

/-- Witness for C7 (amended): enabling session persistence for a key
with no slice in a concrete initialized state records the binding. -/
theorem C7_enable_persistence_always_records_witness :
    ∃ s' ev, enablePersistence (mkInitState [] [] [] [] false) "cfg"
        StorageType.Session = .ok (s', ev) ∧
      alookup s'.persistedKeys "cfg" = some StorageType.Session :=
  C7_enable_persistence_always_records (mkInitState [] [] [] [] false) "cfg"
    StorageType.Session (by decide)

/-- The two metadata record keys are the same string. -/
theorem META_keys_equal : LOCAL_KEY_META = SESSION_KEY_META := rfl

/-- Rebuilding the metadata records only touches the entries under the
metadata key: every other backend entry is unchanged. -/
theorem storageOf_savePersistedKeys (s : WrapperState) (ty : StorageType)
    (k : String) (h : k ≠ LOCAL_KEY_META) :
    alookup (storageOf (savePersistedKeys s) ty) k =
      alookup (storageOf s ty) k := by
  rcases ty <;>
    simp [savePersistedKeys, storageOf,
      alookup_aset_ne _ _ _ _ (Ne.symm h),
      alookup_aset_ne _ _ _ _ (Ne.symm (META_keys_equal ▸ h))]

/-- The backend value stored under `k` after `enablePersistence(k, ty)`
(`none` if the call throws). -/
def backendValueAfterEnable (s : WrapperState) (k : String)
    (ty : StorageType) : Option String :=
  match enablePersistence s k ty with
  | .error _ => none
  | .ok (s', _) => alookup (storageOf s' ty) k

/-- The store slice value for `k` after `enablePersistence(k, ty)`
(`none` if the call throws). -/
def sliceValueAfterEnable (s : WrapperState) (k : String)
    (ty : StorageType) : Option Value :=
  match enablePersistence s k ty with
  | .error _ => none
  | .ok (s', _) => some (storeGet s' k)

/-- A concrete registry for the C8 scenario: the dynamic slice `"u"`
exists and currently holds `7`, while `localStorage` already holds a
stale serialized `5` under `"u"`. -/
def c8State : WrapperState :=
  { mkInitState [] [("u", Value.num 7)]
      [("u", serialize (Value.num 5))] [] true with
      dynamicActions := ["setu"],
      dynamicReducers := ["u"],
      reducerManagerKeys := ["u"],
      selectors := ["u"] }

/-- C8 counterexample: with slice value `7` and a stale backend value
`5`, `enablePersistence` does not overwrite the backend with the
slice's current value.  The call succeeds, but afterwards the backend
still holds the serialization of the old backend value `5` — not the
serialization of the slice value `7` — and the slice itself has been
overwritten with the backend value `5`. -/
theorem C8_counterexample_stale_backend_wins :
    storeGet c8State "u" = Value.num 7 ∧
    alookup (storageOf c8State StorageType.Local) "u"
      = some (serialize (Value.num 5)) ∧
    backendValueAfterEnable c8State "u" StorageType.Local
      = some (serialize (Value.num 5)) ∧
    backendValueAfterEnable c8State "u" StorageType.Local
      ≠ some (serialize (Value.num 7)) ∧
    sliceValueAfterEnable c8State "u" StorageType.Local
      = some (Value.num 5) := by
  decide

/-- C8 (amended): on `enablePersistence(k, ty)` for an existing
dynamic slice, when the chosen backend already holds a parseable value
under `k`, the backend value wins: the call succeeds, the parsed
backend value is written into the slice through `set`, the recorded
binding is `ty`, and the backend afterwards holds the serialization of
that same backend value (rewritten by `set`'s persistence mirror) —
not the slice's previous value.  No overwrite diagnostic is
emitted. -/
theorem C8_enable_restores_backend_value (s : WrapperState) (k : String)
    (ty : StorageType) (str : String) (v : Value)
    (hInit : s.isInitialized = true)
    (hStat : k ∉ s.staticReducerKeys)
    (hAct : ("set" ++ k) ∈ s.dynamicActions)
    (hRed : k ∈ s.reducerManagerKeys)
    (hMeta : k ≠ LOCAL_KEY_META)
    (hstr : alookup (storageOf s ty) k = some str)
    (hparse : parse str = some v) :
    ∃ s' ev, enablePersistence s k ty = .ok (s', ev) ∧
      storeGet s' k = v ∧
      alookup (storageOf s' ty) k = some (serialize v) ∧
      alookup s'.persistedKeys k = some ty := by
  have hlook : alookup (storageOf (savePersistedKeys
      { s with persistedKeys := aset s.persistedKeys k ty }) ty) k
      = some str := by
    rw [storageOf_savePersistedKeys _ _ _ hMeta]
    rcases ty <;> simpa [storageOf] using hstr
  simp only [enablePersistence, hlook, hparse]
  rcases ty <;>
    by_cases hcur : (alookup s.store k).getD Value.vundefined = v <;>
      simp [setOp, dispatchSet, storageSet, storageOf, storeGet,
        savePersistedKeys, hInit, hStat, hAct, hRed, hcur,
        alookup_aset_self]

/-- Witness for C8 (amended) at the concrete C8 registry. -/
theorem C8_enable_restores_backend_value_witness :
    ∃ s' ev, enablePersistence c8State "u" StorageType.Local
        = .ok (s', ev) ∧
      storeGet s' "u" = Value.num 5 ∧
      alookup (storageOf s' StorageType.Local) "u"
        = some (serialize (Value.num 5)) ∧
      alookup s'.persistedKeys "u" = some StorageType.Local :=
  C8_enable_restores_backend_value c8State "u" StorageType.Local
    (serialize (Value.num 5)) (Value.num 5) (by decide) (by decide)
    (by decide) (by decide) (by decide) (by decide) (by decide)

/-- The dynamic-key threshold diagnostic of `set`. -/
def thresholdWarning : Event :=
  .warn "[ngrx-store-wrapper] More than 100 dynamic store keys registered."

/-- Number of threshold diagnostics in an event list. -/
def warnThresholdCount (evs : List Event) : Nat :=
  (evs.filter (fun e => e = thresholdWarning)).length

/-- Registering a batch of keys through repeated `set` calls,
accumulating all emitted events (a throwing call leaves the
accumulator unchanged; with an initialized store none throws). -/
def setAll (s : WrapperState) (keys : List String) (v : Value) :
    WrapperState × List Event :=
  keys.foldl
    (fun acc k =>
      match setOp acc.1 k v with
      | .ok (s', ev) => (s', acc.2 ++ ev)
      | .error _ => acc)
    (s, [])

/-- The 102 distinct fresh keys used by the C9 counterexample. -/
def keys102 : List String := (List.range 102).map (fun i => "k" ++ toString i)

theorem warnThresholdCount_append (a b : List Event) :
    warnThresholdCount (a ++ b) =
      warnThresholdCount a + warnThresholdCount b := by
  simp [warnThresholdCount, List.filter_append]

theorem warnThresholdCount_ite (P : Prop) [Decidable P]
    (a b : List Event) :
    warnThresholdCount (if P then a else b) =
      if P then warnThresholdCount a else warnThresholdCount b :=
  apply_ite warnThresholdCount P a b

set_option maxRecDepth 100000 in
/-- C9 counterexample: registering 102 fresh dynamic keys in dev mode
emits the threshold diagnostic twice — once for the 101st key and
once again for the 102nd — refuting "exactly one diagnostic per
threshold crossing". -/
theorem C9_counterexample_warning_repeats :
    warnThresholdCount
        (setAll (mkInitState [] [] [] [] true) keys102 (Value.num 0)).2 = 2 ∧
    warnThresholdCount
        (setAll (mkInitState [] [] [] [] true) keys102 (Value.num 0)).2 ≠ 1 := by
  constructor
  · decide
  · decide

/-- C9 (amended): the threshold is advisory — registration of a fresh
dynamic key always succeeds and installs the reducer, regardless of
how many dynamic slices exist — but the diagnostic is not one-time:
`set` emits one threshold warning for *every* newly registered key
that brings (or keeps) the dynamic-reducer count above the threshold
of 100, so each registration beyond the 100th warns again. -/
theorem C9_threshold_warns_per_key_never_blocks (s : WrapperState)
    (k : String) (v : Value)
    (hInit : s.isInitialized = true)
    (hStat : k ∉ s.staticReducerKeys)
    (hFresh : ("set" ++ k) ∉ s.dynamicActions) :
    ∃ s' ev, setOp s k v = .ok (s', ev) ∧
      k ∈ s'.reducerManagerKeys ∧
      k ∈ s'.dynamicReducers ∧
      warnThresholdCount ev =
        (if s.devMode = true ∧
            DYNAMIC_KEY_WARN_THRESHOLD < s.dynamicReducers.length + 1
         then 1 else 0) := by
  by_cases hv : Value.vnull = v
  · subst hv
    rcases hpk : alookup s.persistedKeys k with _ | ty
    · simp [setOp, dispatchSet, addReducer, storeGet, storageSet, hInit,
        hStat, hFresh, alookup_aset_self, hpk]
      refine ⟨_, _, ⟨rfl, rfl⟩, by simp, by simp, ?_⟩
      by_cases hc : s.devMode = true ∧
          DYNAMIC_KEY_WARN_THRESHOLD < s.dynamicReducers.length + 1 <;>
        simp [hc, warnThresholdCount, thresholdWarning, List.filter_append]
    · rcases ty <;>
        (simp [setOp, dispatchSet, addReducer, storeGet, storageSet, hInit,
          hStat, hFresh, alookup_aset_self, hpk];
         refine ⟨_, _, ⟨rfl, rfl⟩, by simp, by simp, ?_⟩;
         by_cases hc : s.devMode = true ∧
             DYNAMIC_KEY_WARN_THRESHOLD < s.dynamicReducers.length + 1 <;>
           simp [hc, warnThresholdCount, thresholdWarning, List.filter_append])
  · have hv' : v ≠ Value.vnull := fun h => hv h.symm
    rcases hpk : alookup s.persistedKeys k with _ | ty
    · simp [setOp, dispatchSet, addReducer, storeGet, storageSet, hInit,
        hStat, hFresh, alookup_aset_self, hpk, hv, hv']
      refine ⟨_, _, ⟨rfl, rfl⟩, by simp, by simp, ?_⟩
      by_cases hc : s.devMode = true ∧
          DYNAMIC_KEY_WARN_THRESHOLD < s.dynamicReducers.length + 1 <;>
        simp [hc, warnThresholdCount, thresholdWarning, List.filter_append]
    · rcases ty <;>
        (simp [setOp, dispatchSet, addReducer, storeGet, storageSet, hInit,
          hStat, hFresh, alookup_aset_self, hpk, hv, hv'];
         refine ⟨_, _, ⟨rfl, rfl⟩, by simp, by simp, ?_⟩;
         by_cases hc : s.devMode = true ∧
             DYNAMIC_KEY_WARN_THRESHOLD < s.dynamicReducers.length + 1 <;>
           simp [hc, warnThresholdCount, thresholdWarning, List.filter_append])

/-- Witness for C9 (amended) at a concrete fresh key in an empty
registry (below the threshold, so zero warnings). -/
theorem C9_threshold_witness :
    ∃ s' ev, setOp (mkInitState [] [] [] [] true) "a" (Value.num 1)
        = .ok (s', ev) ∧
      "a" ∈ s'.reducerManagerKeys ∧
      "a" ∈ s'.dynamicReducers ∧
      warnThresholdCount ev =
        (if (mkInitState [] [] [] [] true).devMode = true ∧
            DYNAMIC_KEY_WARN_THRESHOLD <
              (mkInitState [] [] [] [] true).dynamicReducers.length + 1
         then 1 else 0) :=
  C9_threshold_warns_per_key_never_blocks (mkInitState [] [] [] [] true)
    "a" (Value.num 1) (by decide) (by decide) (by decide)

theorem alookup_aerase_ne {α : Type} (m : List (String × α)) (k k' : String)
    (h : k' ≠ k) : alookup (aerase m k) k' = alookup m k' := by
  induction m with
  | nil => simp [aerase, alookup]
  | cons p rest ih =>
    by_cases h1 : p.1 = k
    · have h2 : p.1 ≠ k' := by rw [h1]; exact fun hh => h hh.symm
      simp [aerase, alookup, h1, h2, ih, Ne.symm h]
    · simp [aerase, alookup, h1, ih]

theorem mem_aerase {α : Type} (m : List (String × α)) (k : String)
    (q : String × α) (h : q ∈ aerase m k) : q ∈ m := by
  induction m with
  | nil => simp [aerase] at h
  | cons p rest ih =>
    by_cases h1 : p.1 = k
    · simp only [aerase, h1, if_pos] at h
      exact List.mem_cons_of_mem _ (ih h)
    · simp only [aerase, h1, if_neg, not_false_iff, List.mem_cons] at h
      rcases h with h | h
      · exact h ▸ List.mem_cons_self _ _
      · exact List.mem_cons_of_mem _ (ih h)

theorem mem_aset {α : Type} (m : List (String × α)) (k : String) (v : α)
    (q : String × α) (h : q ∈ aset m k v) : q = (k, v) ∨ q ∈ m := by
  induction m with
  | nil => simpa [aset] using h
  | cons p rest ih =>
    by_cases h1 : p.1 = k
    · simp only [aset, h1, if_pos, List.mem_cons] at h
      rcases h with h | h
      · exact Or.inl h
      · exact Or.inr (List.mem_cons_of_mem _ h)
    · simp only [aset, h1, if_neg, not_false_iff, List.mem_cons] at h
      rcases h with h | h
      · exact Or.inr (h ▸ List.mem_cons_self _ _)
      · rcases ih h with h' | h'
        · exact Or.inl h'
        · exact Or.inr (List.mem_cons_of_mem _ h')

theorem alookup_mem {α : Type} (m : List (String × α)) (k : String) (v : α)
    (h : alookup m k = some v) : (k, v) ∈ m := by
  induction m with
  | nil => simp [alookup] at h
  | cons p rest ih =>
    by_cases h1 : p.1 = k
    · simp only [alookup, h1, if_pos, Option.some.injEq] at h
      have hp : p = (k, v) := by
        obtain ⟨a, b⟩ := p
        simp_all
      rw [← hp]
      exact List.mem_cons_self _ _
    · simp only [alookup, h1, if_neg, not_false_iff] at h
      exact List.mem_cons_of_mem _ (ih h)

/-- Number of running interval timers polling for key `k`. -/
def countTimers (s : WrapperState) (k : String) : Nat :=
  (s.liveTimers.filter (fun p => p.1 = k)).length

/-- The timer-bookkeeping invariant maintained by the effect
scheduler: every key has at most one running interval timer, every
running timer is recorded under its key in `pollingSubscriptions`,
and every recorded subscription id was allocated by the id supply. -/
def TimerOK (s : WrapperState) : Prop :=
  (∀ p ∈ s.liveTimers, countTimers s p.1 ≤ 1) ∧
  (∀ p ∈ s.liveTimers, alookup s.pollingSubs p.1 = some p.2) ∧
  (∀ q ∈ s.pollingSubs, q.2 < s.nextTimerId)

theorem removeEffect_liveTimers (s : WrapperState) (k : String) :
    (removeEffect s k).1.liveTimers =
      (match alookup s.pollingSubs k with
       | some id => s.liveTimers.filter (fun p => p.2 ≠ id)
       | none => s.liveTimers) := by
  unfold removeEffect
  cases h : alookup s.pollingSubs k <;>
    simp only [h] <;>
    (cases h2 : alookup _ k <;> simp [h2])

theorem removeEffect_pollingSubs (s : WrapperState) (k : String) :
    (removeEffect s k).1.pollingSubs =
      (match alookup s.pollingSubs k with
       | some _ => aerase s.pollingSubs k
       | none => s.pollingSubs) := by
  unfold removeEffect
  cases h : alookup s.pollingSubs k <;>
    simp only [h] <;>
    (cases h2 : alookup _ k <;> simp [h2])

theorem removeEffect_nextTimerId (s : WrapperState) (k : String) :
    (removeEffect s k).1.nextTimerId = s.nextTimerId := by
  unfold removeEffect
  cases h : alookup s.pollingSubs k <;>
    simp only [h] <;>
    (cases h2 : alookup _ k <;> simp [h2])

/-- After `removeEffect(k)` no interval timer polls for `k` (given
that running timers are recorded in `pollingSubscriptions`). -/
theorem removeEffect_no_timer (s : WrapperState) (k : String)
    (hreg : ∀ p ∈ s.liveTimers, alookup s.pollingSubs p.1 = some p.2) :
    ∀ p ∈ (removeEffect s k).1.liveTimers, p.1 ≠ k := by
  rw [removeEffect_liveTimers]
  cases h : alookup s.pollingSubs k
  · intro p hp hpk
    have := hreg p hp
    rw [hpk, h] at this
    exact Option.noConfusion this
  · intro p hp hpk
    have hmem := List.mem_of_mem_filter hp
    have hne := List.of_mem_filter hp
    have hr := hreg p hmem
    rw [hpk, h] at hr
    simp only [Option.some.injEq] at hr
    simp [hr] at hne

theorem removeEffect_subset (s : WrapperState) (k : String) :
    ∀ p ∈ (removeEffect s k).1.liveTimers, p ∈ s.liveTimers := by
  rw [removeEffect_liveTimers]
  cases h : alookup s.pollingSubs k
  · exact fun p hp => hp
  · exact fun p hp => List.mem_of_mem_filter hp

theorem removeEffect_count_le (s : WrapperState) (k k' : String) :
    countTimers (removeEffect s k).1 k' ≤ countTimers s k' := by
  unfold countTimers
  rw [removeEffect_liveTimers]
  cases h : alookup s.pollingSubs k
  · exact Nat.le_refl _
  · exact List.Sublist.length_le
      (List.Sublist.filter _ (List.filter_sublist _))

/-- `removeEffect` preserves the timer invariant. -/
theorem removeEffect_TimerOK (s : WrapperState) (k : String)
    (h : TimerOK s) : TimerOK (removeEffect s k).1 := by
  obtain ⟨hcount, hreg, hfresh⟩ := h
  refine ⟨?_, ?_, ?_⟩
  · intro p hp
    calc countTimers (removeEffect s k).1 p.1
        ≤ countTimers s p.1 := removeEffect_count_le s k p.1
      _ ≤ 1 := hcount p (removeEffect_subset s k p hp)
  · intro p hp
    have hk := removeEffect_no_timer s k hreg p hp
    have hm := removeEffect_subset s k p hp
    rw [removeEffect_pollingSubs]
    cases hl : alookup s.pollingSubs k
    · exact hreg p hm
    · rw [alookup_aerase_ne _ _ _ hk]
      exact hreg p hm
  · intro q hq
    rw [removeEffect_nextTimerId]
    rw [removeEffect_pollingSubs] at hq
    cases hl : alookup s.pollingSubs k <;> rw [hl] at hq
    · exact hfresh q hq
    · exact hfresh q (mem_aerase _ _ _ hq)

/-- `executeEffect` never touches the timer bookkeeping: whatever the
producer does, the running timers, the subscription record and the id
supply are unchanged. -/
theorem executeEffect_timer_frame (s : WrapperState) (k : String)
    (out : ProducerOutcome) :
    (executeEffect s k out).1.liveTimers = s.liveTimers ∧
    (executeEffect s k out).1.pollingSubs = s.pollingSubs ∧
    (executeEffect s k out).1.nextTimerId = s.nextTimerId := by
  unfold executeEffect
  cases hc : alookup s.effectConfigs k
  · simp
  · rcases out with v | msg
    · by_cases hnull : v = Value.vnull ∨ v = Value.vundefined
      · simp [hnull]
      · simp only [hnull, ite_false, if_neg, not_false_iff]
        rename_i cfg
        cases hso : setOp s k (match cfg.transform with
          | some t => TransformFn.apply t v
          | none => v) with
        | error e => simp [hso]
        | ok p =>
          obtain ⟨s', ev⟩ := p
          obtain ⟨-, h2, h3, h4, -⟩ := setOp_frame _ _ _ _ _ hso
          simp [hso, h2, h3, h4]
    · simp

theorem countTimers_eq_zero (s : WrapperState) (k : String)
    (h : ∀ p ∈ s.liveTimers, p.1 ≠ k) : countTimers s k = 0 := by
  unfold countTimers
  rw [List.length_eq_zero, List.filter_eq_nil_iff]
  intro p hp
  simpa using h p hp

/-- Shape of `addEffect`: the state it returns is an intermediate
state `s3` (the teardown of the old registration, the stored config
and the optional immediate execution — none of which touch timers)
on top of which, exactly when `intervalMs` is set, one fresh interval
timer for the key is started and recorded. -/
theorem addEffect_timer_shape (s : WrapperState) (opts : EffectOptions)
    (out : ProducerOutcome) :
    ∃ s3 : WrapperState,
      s3.liveTimers = (removeEffect s opts.key).1.liveTimers ∧
      s3.pollingSubs = (removeEffect s opts.key).1.pollingSubs ∧
      s3.nextTimerId = s.nextTimerId ∧
      (addEffect s opts out).1 =
        (match opts.intervalMs with
         | some _ =>
            { s3 with
                liveTimers := (opts.key, s3.nextTimerId) :: s3.liveTimers,
                pollingSubs := aset s3.pollingSubs opts.key s3.nextTimerId,
                nextTimerId := s3.nextTimerId + 1 }
         | none => s3) := by
  rcases hint : opts.intervalMs with _ | n <;>
    by_cases him : opts.immediate <;>
      simp only [addEffect, hint, him, ite_true, ite_false] <;>
      refine ⟨_, ?_, ?_, ?_, rfl⟩ <;>
      first
        | exact (executeEffect_timer_frame _ _ _).1.trans (by simp)
        | exact (executeEffect_timer_frame _ _ _).2.1.trans (by simp)
        | exact (executeEffect_timer_frame _ _ _).2.2.trans
            (by simp [removeEffect_nextTimerId])
        | simp [removeEffect_nextTimerId]

/-- C4: single active polling timer per key.  `addEffect` first tears
down any existing registration via `removeEffect` (cancelling its
timer and deleting its config) before installing the new one, so it
preserves the timer invariant; after the call the key has exactly one
running timer when `intervalMs` is set and none otherwise, and the
previously recorded timer (if any) is no longer running. -/
theorem C4_addEffect_at_most_one_timer (s : WrapperState)
    (opts : EffectOptions) (out : ProducerOutcome) (h : TimerOK s) :
    TimerOK (addEffect s opts out).1 ∧
    countTimers (addEffect s opts out).1 opts.key =
      (match opts.intervalMs with | some _ => 1 | none => 0) ∧
    ∀ id, alookup s.pollingSubs opts.key = some id →
      (opts.key, id) ∉ (addEffect s opts out).1.liveTimers := by
  obtain ⟨s3, hLive, hSubs, hNext, hEq⟩ := addEffect_timer_shape s opts out
  obtain ⟨hc1, hr1, hf1⟩ := removeEffect_TimerOK s opts.key h
  have hA3 : ∀ p ∈ s3.liveTimers, p.1 ≠ opts.key := by
    rw [hLive]
    exact removeEffect_no_timer s opts.key h.2.1
  have hOK3 : TimerOK s3 := by
    refine ⟨?_, ?_, ?_⟩
    · intro p hp
      unfold countTimers
      rw [hLive]
      rw [hLive] at hp
      exact hc1 p hp
    · intro p hp
      rw [hLive] at hp
      rw [hSubs]
      exact hr1 p hp
    · intro q hq
      rw [hSubs] at hq
      rw [hNext, ← removeEffect_nextTimerId s opts.key]
      exact hf1 q hq
  have hzero : countTimers s3 opts.key = 0 := countTimers_eq_zero s3 opts.key hA3
  rw [hEq]
  rcases hint : opts.intervalMs with _ | n <;> simp only [hint]
  · refine ⟨hOK3, hzero, ?_⟩
    intro id hid hmem
    exact hA3 _ hmem rfl
  · have hcnt : ∀ x : String, x ≠ opts.key →
        countTimers { s3 with
            liveTimers := (opts.key, s3.nextTimerId) :: s3.liveTimers,
            pollingSubs := aset s3.pollingSubs opts.key s3.nextTimerId,
            nextTimerId := s3.nextTimerId + 1 } x = countTimers s3 x := by
      intro x hx
      unfold countTimers
      simp [List.filter_cons, Ne.symm hx]
    have hcntk : countTimers { s3 with
        liveTimers := (opts.key, s3.nextTimerId) :: s3.liveTimers,
        pollingSubs := aset s3.pollingSubs opts.key s3.nextTimerId,
        nextTimerId := s3.nextTimerId + 1 } opts.key = 1 := by
      unfold countTimers
      simp only [List.filter_cons]
      have := hzero
      unfold countTimers at this
      simp [this]
    refine ⟨⟨?_, ?_, ?_⟩, hcntk, ?_⟩
    · intro p hp
      simp only [List.mem_cons] at hp
      rcases hp with hp | hp
      · rw [hp]
        simpa using Nat.le_of_eq hcntk
      · rw [hcnt p.1 (hA3 p hp)]
        exact hOK3.1 p hp
    · intro p hp
      simp only [List.mem_cons] at hp
      rcases hp with hp | hp
      · rw [hp]
        exact alookup_aset_self _ _ _
      · rw [alookup_aset_ne _ _ _ _ (Ne.symm (hA3 p hp))]
        exact hOK3.2.1 p hp
    · intro q hq
      rcases mem_aset _ _ _ _ hq with hq' | hq'
      · rw [hq']
        exact Nat.lt_succ_self _
      · exact Nat.lt_trans (hOK3.2.2 q hq') (Nat.lt_succ_self _)
    · intro id hid hmem
      have hidlt : id < s.nextTimerId := h.2.2 _ (alookup_mem _ _ _ hid)
      simp only [List.mem_cons] at hmem
      rcases hmem with hm | hm
      · have : id = s3.nextTimerId := by
          have := congrArg Prod.snd hm
          simpa using this
        rw [hNext] at this
        exact absurd this (Nat.ne_of_lt hidlt)
      · exact hA3 _ hm rfl

theorem alookup_foldl_aset_notmem (keys : List String) (ty : StorageType)
    (m : List (String × StorageType)) (k : String) (hk : k ∉ keys) :
    alookup (keys.foldl (fun acc k' => aset acc k' ty) m) k = alookup m k := by
  induction keys generalizing m with
  | nil => rfl
  | cons a rest ih =>
    simp only [List.foldl_cons]
    rw [ih _ (fun h => hk (List.mem_cons_of_mem _ h))]
    exact alookup_aset_ne _ _ _ _ (fun h => hk (h ▸ List.mem_cons_self _ _))

theorem alookup_foldl_aset_mem (keys : List String) (ty : StorageType)
    (m : List (String × StorageType)) (k : String) (hk : k ∈ keys) :
    alookup (keys.foldl (fun acc k' => aset acc k' ty) m) k = some ty := by
  induction keys generalizing m with
  | nil => simp at hk
  | cons a rest ih =>
    simp only [List.foldl_cons]
    by_cases hmem : k ∈ rest
    · exact ih _ hmem
    · have hka : k = a := by
        rcases List.mem_cons.mp hk with h | h
        · exact h
        · exact absurd h hmem
      subst hka
      rw [alookup_foldl_aset_notmem rest ty _ k hmem]
      exact alookup_aset_self _ _ _

theorem restoreStep_persistedKeys (acc : WrapperState × List Event)
    (p : String × StorageType) :
    (restoreStep acc p).1.persistedKeys = acc.1.persistedKeys := by
  unfold restoreStep
  cases h1 : alookup (storageOf acc.1 p.2) p.1
  · simp
  · rename_i str
    by_cases h2 : str = ""
    · simp [h2]
    · simp only [h2, ite_false, if_neg, not_false_iff]
      cases h3 : parse str
      · simp
      · rename_i v
        cases h4 : setOp acc.1 p.1 v with
        | error e => simp [h4]
        | ok q =>
          obtain ⟨st', ev'⟩ := q
          obtain ⟨hq, -⟩ := setOp_frame _ _ _ _ _ h4
          simp [h4, hq]

theorem restore_fold_persistedKeys (l : List (String × StorageType))
    (a : WrapperState) (evs : List Event) :
    ((l.foldl restoreStep (a, evs)).1).persistedKeys = a.persistedKeys := by
  induction l generalizing a evs with
  | nil => rfl
  | cons p rest ih =>
    simp only [List.foldl_cons]
    rcases hstep : restoreStep (a, evs) p with ⟨a', evs'⟩
    rw [ih a' evs']
    have hh := restoreStep_persistedKeys (a, evs) p
    rw [hstep] at hh
    exact hh

/-- Startup restoration never changes which keys are persisted (it
only feeds values into the store). -/
theorem restorePersistedState_persistedKeys (s : WrapperState) :
    (restorePersistedState s).1.persistedKeys = s.persistedKeys := by
  unfold restorePersistedState
  exact restore_fold_persistedKeys _ _ _

/-- `loadPersistedKeys` inserts the keys listed by the local metadata
record first and the keys listed by the session metadata record
second; a key listed in both ends up bound to `Session`. -/
theorem loadPersistedKeys_session_wins (s : WrapperState) (k : String)
    (lmeta smeta : String) (L S : List String)
    (hl : alookup s.localStorage LOCAL_KEY_META = some lmeta)
    (hl0 : lmeta ≠ "")
    (hlp : parseKeys lmeta = some L)
    (hkL : k ∈ L)
    (hs : alookup s.sessionStorage SESSION_KEY_META = some smeta)
    (hs0 : smeta ≠ "")
    (hsp : parseKeys smeta = some S)
    (hkS : k ∈ S) :
    alookup (loadPersistedKeys s).persistedKeys k =
      some StorageType.Session := by
  unfold loadPersistedKeys
  rw [hl]
  simp only [hl0, ite_false, if_neg, not_false_iff]
  rw [hlp]
  simp only []
  rw [hs]
  simp only [hs0, ite_false, if_neg, not_false_iff]
  rw [hsp]
  simp only []
  exact alookup_foldl_aset_mem S StorageType.Session _ k hkS

/-- C10: the durable and session metadata records use the identical
key string, and when a key is listed in both, initialization ends with
the key bound to `Session`: `loadPersistedKeys` inserts local entries
first and session entries second, the later `Map.set` overwriting the
earlier binding, and startup restoration changes no bindings. -/
theorem C10_duplicate_key_session_wins (s : WrapperState) (k : String)
    (lmeta smeta : String) (L S : List String)
    (hl : alookup s.localStorage LOCAL_KEY_META = some lmeta)
    (hl0 : lmeta ≠ "")
    (hlp : parseKeys lmeta = some L)
    (hkL : k ∈ L)
    (hs : alookup s.sessionStorage SESSION_KEY_META = some smeta)
    (hs0 : smeta ≠ "")
    (hsp : parseKeys smeta = some S)
    (hkS : k ∈ S) :
    LOCAL_KEY_META = SESSION_KEY_META ∧
    alookup (initializeStore s).1.persistedKeys k =
      some StorageType.Session := by
  refine ⟨rfl, ?_⟩
  unfold initializeStore
  rw [restorePersistedState_persistedKeys]
  exact loadPersistedKeys_session_wins _ k lmeta smeta L S hl hl0 hlp hkL
    hs hs0 hsp hkS

/-- Witness for C10: `"k"` listed in both metadata records ends up
Session-persisted after initialization. -/
theorem C10_duplicate_key_session_wins_witness :
    LOCAL_KEY_META = SESSION_KEY_META ∧
    alookup (initializeStore (mkInitState [] []
        [(LOCAL_KEY_META, "a,k")] [(SESSION_KEY_META, "k")]
        true)).1.persistedKeys "k" = some StorageType.Session :=
  C10_duplicate_key_session_wins
    (mkInitState [] [] [(LOCAL_KEY_META, "a,k")] [(SESSION_KEY_META, "k")]
      true)
    "k" "a,k" "k" ["a", "k"] ["k"] (by decide) (by decide) (by decide)
    (by decide) (by decide) (by decide) (by decide) (by decide)

/-- The service state after `remove(k)` (`none` if the call throws). -/
def stateAfterRemove (s : WrapperState) (k : String) :
    Option WrapperState :=
  match removeOp s k with
  | .error _ => none
  | .ok (s', _) => some s'

/-- A registry in which the dynamic slice `"u"` exists together with
an effect registration (config and running 1000ms interval timer) and
a Local persistence binding for the same key. -/
def c3State : WrapperState :=
  { mkInitState [] [("u", Value.num 1)] [] [] true with
      dynamicActions := ["setu"],
      dynamicReducers := ["u"],
      reducerManagerKeys := ["u"],
      selectors := ["u"],
      persistedKeys := [("u", StorageType.Local)],
      pollingSubs := [("u", 0)],
      liveTimers := [("u", 0)],
      nextTimerId := 1,
      effectConfigs := [("u", ⟨some 1000, true, none, 0⟩)] }

/-- C3 evaluated at the failing input: `remove("u")` does delete the
reducer bookkeeping and selector and uninstall the write-handler, but
it performs no cascade whatsoever — the effect configuration, the
running polling timer, its subscription record and the persistence
binding for `"u"` all survive, and even the `dynamicActions` entry
survives because the code deletes `dynamicActions[key]` although the
action was stored under `"set" ++ key`. -/
theorem C3_remove_does_not_cascade :
    stateAfterRemove c3State "u" = some
      { c3State with
          dynamicReducers := [],
          selectors := [],
          reducerManagerKeys := [],
          store := [] } := by
  decide

/-- A scheduler state with one running timer (id 0) polling for
`"x"`, recorded in the subscription record, with its config. -/
def c4State : WrapperState :=
  { mkInitState [] [] [] [] true with
      pollingSubs := [("x", 0)],
      liveTimers := [("x", 0)],
      nextTimerId := 1,
      effectConfigs := [("x", ⟨some 500, true, none, 7⟩)] }

/-- The replacing registration for `"x"`: manual-trigger polling every
1000ms. -/
def c4Opts : EffectOptions := ⟨"x", some 1000, false, none, 8⟩

/-- Witness for C4 at a concrete scheduler state: re-registering the
polling effect for `"x"` leaves exactly one running timer for `"x"`,
and the previously running timer (id 0) is no longer live. -/
theorem C4_addEffect_at_most_one_timer_witness :
    countTimers (addEffect c4State c4Opts
        (ProducerOutcome.success (Value.num 1))).1 "x" = 1 ∧
    ("x", 0) ∉ (addEffect c4State c4Opts
        (ProducerOutcome.success (Value.num 1))).1.liveTimers :=
  ⟨by
    simpa using (C4_addEffect_at_most_one_timer c4State c4Opts
      (ProducerOutcome.success (Value.num 1)) (by unfold TimerOK; decide)).2.1,
   (C4_addEffect_at_most_one_timer c4State c4Opts
      (ProducerOutcome.success (Value.num 1)) (by unfold TimerOK; decide)).2.2 0 rfl⟩
